import Mathlib

/-!
Shallow embedding of the adaptive mastering-parameter engine of
`backend/intelligent_mastering_engine.py` and of the genre-template
aggregation of `backend/training_database.py`.

Numbers are rationals (`ℚ`): the Python floats in these code paths are
decimal literals and the arithmetic on them (`+`, `-`, `*`, `max`, `min`,
comparisons) is exact on the values that occur, so `ℚ` models it faithfully.
Python dicts with a fixed key set become structures; `dict.get(k, d)` on
optional input data becomes `Option.getD`; a key that may be absent from a
template dict becomes an `Option` field.
-/

/-- One EQ band of `MasteringParameters.eq_bands`: center frequency,
gain in dB, and Q factor (Python dict `{"freq": _, "gain": _, "q": _}`). -/
structure EqBand where
  freq : ℚ
  gain : ℚ
  q : ℚ
deriving DecidableEq

/-- The seven named EQ bands, in the fixed dict-insertion order of the
source (`sub_bass`, `bass`, `low_mid`, `mid`, `high_mid`, `presence`, `air`). -/
structure EqBands where
  sub_bass : EqBand
  bass : EqBand
  low_mid : EqBand
  mid : EqBand
  high_mid : EqBand
  presence : EqBand
  air : EqBand
deriving DecidableEq

/-- One multiband-compressor band: `{"threshold": _, "ratio": _, "attack": _, "release": _}`. -/
structure MBBand where
  threshold : ℚ
  ratio : ℚ
  attack : ℚ
  release : ℚ
deriving DecidableEq

/-- The three multiband compressor bands (`low`, `mid`, `high`). -/
structure MultibandCompression where
  low : MBBand
  mid : MBBand
  high : MBBand
deriving DecidableEq

/-- Bus compressor settings. -/
structure BusCompression where
  threshold : ℚ
  ratio : ℚ
  attack : ℚ
  release : ℚ
deriving DecidableEq

/-- The `MasteringParameters` dataclass of the source. -/
structure MasteringParameters where
  highpass_freq : ℚ
  lowpass_freq : ℚ
  eq_bands : EqBands
  multiband_compression : MultibandCompression
  bus_compression : BusCompression
  stereo_width : ℚ
  bass_mono_freq : ℚ
  saturation_amount : ℚ
  harmonic_enhancement : ℚ
  limiter_ceiling : ℚ
  limiter_release : ℚ
  target_lufs : ℚ
  preserve_dynamics : Bool
  gentle_processing : Bool
deriving DecidableEq

/-- The `__post_init__` default EQ bands (all gains zero). -/
def defaultEqBands : EqBands :=
  { sub_bass := { freq := 45, gain := 0, q := 1.2 }
    bass := { freq := 85, gain := 0, q := 1.3 }
    low_mid := { freq := 200, gain := 0, q := 2.0 }
    mid := { freq := 1200, gain := 0, q := 1.4 }
    high_mid := { freq := 3200, gain := 0, q := 1.6 }
    presence := { freq := 5500, gain := 0, q := 1.8 }
    air := { freq := 12000, gain := 0, q := 2.0 } }

/-- The `__post_init__` default multiband compression. -/
def defaultMultiband : MultibandCompression :=
  { low := { threshold := -20, ratio := 2.0, attack := 10, release := 100 }
    mid := { threshold := -18, ratio := 2.5, attack := 5, release := 50 }
    high := { threshold := -15, ratio := 3.0, attack := 2, release := 25 } }

/-- The `__post_init__` default bus compression. -/
def defaultBus : BusCompression :=
  { threshold := -8, ratio := 2.0, attack := 3, release := 30 }

/-- The dataclass field defaults of `MasteringParameters`. -/
def defaultParameters : MasteringParameters :=
  { highpass_freq := 30
    lowpass_freq := 20000
    eq_bands := defaultEqBands
    multiband_compression := defaultMultiband
    bus_compression := defaultBus
    stereo_width := 1.0
    bass_mono_freq := 80
    saturation_amount := 0.05
    harmonic_enhancement := 0.02
    limiter_ceiling := -0.8
    limiter_release := 35
    target_lufs := -14.0
    preserve_dynamics := false
    gentle_processing := false }

/-- `ai_profiles["modern_pop"]` of `_initialize_ai_profiles`. -/
def modern_pop : MasteringParameters :=
  { defaultParameters with
    target_lufs := -13.5
    eq_bands :=
      { sub_bass := { freq := 40, gain := -1.0, q := 1.5 }
        bass := { freq := 80, gain := 0.8, q := 1.3 }
        low_mid := { freq := 180, gain := -0.5, q := 2.2 }
        mid := { freq := 1200, gain := 1.0, q := 1.4 }
        high_mid := { freq := 3000, gain := 1.5, q := 1.6 }
        presence := { freq := 5500, gain := 1.2, q := 1.8 }
        air := { freq := 12000, gain := 0.8, q := 2.0 } }
    multiband_compression :=
      { low := { threshold := -18, ratio := 2.5, attack := 8, release := 80 }
        mid := { threshold := -16, ratio := 3.0, attack := 3, release := 40 }
        high := { threshold := -14, ratio := 3.5, attack := 1, release := 20 } }
    stereo_width := 1.15
    saturation_amount := 0.06
    limiter_ceiling := -0.5
    limiter_release := 30 }

/-- `ai_profiles["bass_heavy_modern"]`. -/
def bass_heavy_modern : MasteringParameters :=
  { defaultParameters with
    target_lufs := -12.0
    eq_bands :=
      { sub_bass := { freq := 35, gain := 2.5, q := 1.2 }
        bass := { freq := 85, gain := 2.0, q := 1.3 }
        low_mid := { freq := 200, gain := -1.0, q := 2.1 }
        mid := { freq := 1000, gain := 0.5, q := 1.4 }
        high_mid := { freq := 3500, gain := 1.8, q := 1.6 }
        presence := { freq := 6000, gain := 1.0, q := 1.8 }
        air := { freq := 10000, gain := 0.5, q := 2.0 } }
    multiband_compression :=
      { low := { threshold := -15, ratio := 3.0, attack := 12, release := 100 }
        mid := { threshold := -14, ratio := 2.8, attack := 4, release := 45 }
        high := { threshold := -12, ratio := 3.2, attack := 1, release := 25 } }
    stereo_width := 1.0
    bass_mono_freq := 120
    saturation_amount := 0.08
    limiter_ceiling := -0.3
    limiter_release := 25 }

/-- `ai_profiles["smooth_vocal_focus"]`. -/
def smooth_vocal_focus : MasteringParameters :=
  { defaultParameters with
    target_lufs := -15.0
    eq_bands :=
      { sub_bass := { freq := 40, gain := -0.5, q := 1.5 }
        bass := { freq := 80, gain := 1.0, q := 1.2 }
        low_mid := { freq := 180, gain := -0.8, q := 2.2 }
        mid := { freq := 1000, gain := 1.5, q := 1.3 }
        high_mid := { freq := 2800, gain := 2.2, q := 1.5 }
        presence := { freq := 5000, gain := 2.0, q := 1.7 }
        air := { freq := 10000, gain := 1.2, q := 2.0 } }
    multiband_compression :=
      { low := { threshold := -20, ratio := 2.0, attack := 15, release := 120 }
        mid := { threshold := -18, ratio := 2.2, attack := 6, release := 60 }
        high := { threshold := -16, ratio := 2.8, attack := 2, release := 35 } }
    stereo_width := 1.2
    saturation_amount := 0.04
    limiter_ceiling := -0.8
    limiter_release := 45
    preserve_dynamics := true }

/-- `ai_profiles["aggressive_urban"]`. -/
def aggressive_urban : MasteringParameters :=
  { defaultParameters with
    target_lufs := -11.5
    eq_bands :=
      { sub_bass := { freq := 45, gain := 1.8, q := 1.2 }
        bass := { freq := 90, gain := 1.5, q := 1.3 }
        low_mid := { freq := 200, gain := -0.5, q := 2.0 }
        mid := { freq := 1200, gain := 0.8, q := 1.4 }
        high_mid := { freq := 3500, gain := 2.5, q := 1.5 }
        presence := { freq := 6000, gain := 2.0, q := 1.7 }
        air := { freq := 12000, gain := 1.0, q := 1.9 } }
    multiband_compression :=
      { low := { threshold := -16, ratio := 3.2, attack := 8, release := 70 }
        mid := { threshold := -14, ratio := 3.5, attack := 2, release := 35 }
        high := { threshold := -12, ratio := 4.0, attack := 1, release := 20 } }
    stereo_width := 1.05
    saturation_amount := 0.1
    harmonic_enhancement := 0.05
    limiter_ceiling := -0.2
    limiter_release := 20 }

/-- `ai_profiles["log_drum_emphasis"]`. -/
def log_drum_emphasis : MasteringParameters :=
  { defaultParameters with
    target_lufs := -12.5
    eq_bands :=
      { sub_bass := { freq := 45, gain := 2.2, q := 1.1 }
        bass := { freq := 85, gain := 1.8, q := 1.3 }
        low_mid := { freq := 200, gain := -1.2, q := 2.1 }
        mid := { freq := 1200, gain := 0.8, q := 1.4 }
        high_mid := { freq := 3200, gain := 1.5, q := 1.6 }
        presence := { freq := 5500, gain := 0.6, q := 1.8 }
        air := { freq := 12000, gain := 1.1, q := 1.9 } }
    multiband_compression :=
      { low := { threshold := -18, ratio := 2.8, attack := 15, release := 120 }
        mid := { threshold := -16, ratio := 2.2, attack := 8, release := 60 }
        high := { threshold := -12, ratio := 2.5, attack := 3, release := 35 } }
    stereo_width := 1.35
    bass_mono_freq := 90
    saturation_amount := 0.08
    limiter_ceiling := -0.8
    limiter_release := 45 }

/-- `ai_profiles["dynamic_preservation"]`. -/
def dynamic_preservation : MasteringParameters :=
  { defaultParameters with
    target_lufs := -16.0
    eq_bands :=
      { sub_bass := { freq := 35, gain := -1.5, q := 1.8 }
        bass := { freq := 80, gain := 0.5, q := 1.2 }
        low_mid := { freq := 180, gain := -0.8, q := 2.2 }
        mid := { freq := 1000, gain := 1.2, q := 1.3 }
        high_mid := { freq := 2800, gain := 2.1, q := 1.5 }
        presence := { freq := 5000, gain := 1.8, q := 1.7 }
        air := { freq := 10000, gain := 1.5, q := 2.0 } }
    multiband_compression :=
      { low := { threshold := -24, ratio := 1.8, attack := 25, release := 200 }
        mid := { threshold := -20, ratio := 2.0, attack := 12, release := 100 }
        high := { threshold := -18, ratio := 2.2, attack := 5, release := 60 } }
    bus_compression := { threshold := -12, ratio := 1.4, attack := 8, release := 80 }
    stereo_width := 1.15
    saturation_amount := 0.03
    limiter_ceiling := -1.5
    limiter_release := 80
    preserve_dynamics := true
    gentle_processing := true }

/-- The labels of `self.ai_profiles`, in insertion order. -/
def profileLabels : List String :=
  ["modern_pop", "bass_heavy_modern", "smooth_vocal_focus",
   "aggressive_urban", "log_drum_emphasis", "dynamic_preservation"]

/-- Base-profile selection of `_optimize_mastering_parameters`:
`if mastering_profile in self.ai_profiles ... else ai_profiles["modern_pop"]`.
The membership test over the fixed dict is written as a chain of label
comparisons; `_copy_params` (a deepcopy) needs no model since values are
immutable here. -/
def getBaseProfile (label : String) : MasteringParameters :=
  if label = "modern_pop" then modern_pop
  else if label = "bass_heavy_modern" then bass_heavy_modern
  else if label = "smooth_vocal_focus" then smooth_vocal_focus
  else if label = "aggressive_urban" then aggressive_urban
  else if label = "log_drum_emphasis" then log_drum_emphasis
  else if label = "dynamic_preservation" then dynamic_preservation
  else modern_pop

/-- The fields of the analysis dict that `_optimize_mastering_parameters`,
`_apply_track_specific_optimizations` and `_explain_ai_decisions` read.
A missing key or missing section is `none`; the `.get` defaults of the
source are applied by the extraction functions below. -/
structure Analysis where
  genre : Option String
  mastering_profile : Option String
  integrated_lufs : Option ℚ
  dynamic_range_db : Option ℚ
  bass_emphasis : Option ℚ
  high_emphasis : Option ℚ
  stereo_width : Option ℚ
deriving DecidableEq

/-- `analysis.get("loudness_analysis", {}).get("integrated_lufs", -18.0)`. -/
def lufsOf (a : Analysis) : ℚ := a.integrated_lufs.getD (-18.0)

/-- `analysis.get("dynamic_analysis", {}).get("dynamic_range_db", 10.0)`. -/
def drOf (a : Analysis) : ℚ := a.dynamic_range_db.getD 10.0

/-- `analysis.get("frequency_analysis", {}).get("bass_emphasis", 0.3)`. -/
def bassOf (a : Analysis) : ℚ := a.bass_emphasis.getD 0.3

/-- `analysis.get("frequency_analysis", {}).get("high_emphasis", 0.3)`. -/
def highOf (a : Analysis) : ℚ := a.high_emphasis.getD 0.3

/-- `analysis.get("stereo_analysis", {}).get("stereo_width", 0.7)`. -/
def widthOf (a : Analysis) : ℚ := a.stereo_width.getD 0.7

/-- `analysis.get("mastering_profile", "balanced_modern")`. -/
def profileOf (a : Analysis) : String := a.mastering_profile.getD "balanced_modern"

/-- `analysis.get("genre", "").lower()`, the key used against `genre_templates`. -/
def genreKey (a : Analysis) : String := (a.genre.getD "").toLower

/-- A genre template dict as consumed by `_apply_genre_template`: the
`target_parameters` and `processing_recommendations` entries it looks up,
with `Option` for the `if key in dict` membership checks. -/
structure GenreTemplate where
  lufs_target : Option ℚ
  dynamic_range_target : Option ℚ
  bass_emphasis : ℚ
  high_emphasis : ℚ
  stereo_width : Option ℚ
  reference_count : ℕ
  comp_ratio : Option ℚ
  eq_bass_boost : Option ℚ
  eq_high_boost : Option ℚ
  eq_low_mid_cut : Option ℚ
  lim_ceiling : Option ℚ
  lim_release : Option ℚ
deriving DecidableEq

/-- One row of the `training_tracks` table, restricted to the columns the
template aggregation reads. `store_track_analysis` always writes these
columns with a numeric value (defaults in place of missing keys), so an
SQL `AVG` over them is never NULL when rows exist. -/
structure TrackRecord where
  genre : String
  integrated_lufs : ℚ
  dynamic_range_db : ℚ
  bass_emphasis : ℚ
  high_emphasis : ℚ
  stereo_width : ℚ
deriving DecidableEq

/-- Arithmetic mean of `f` over the rows (SQL `AVG`). -/
def avgOf (rows : List TrackRecord) (f : TrackRecord → ℚ) : ℚ :=
  (rows.map f).sum / (rows.length : ℚ)

/-- `_load_genre_templates` for one genre: the rows of the corpus with that
exact genre label; a template dict is built only when `count >= 5`, from the
per-genre `AVG`s, with processing recommendations
`{"compression": {"ratio": 2.5}, "eq": {"bass_boost": max(0, avg_bass - 0.3)},
"limiting": {"ceiling": -0.8}}` (no `high_boost`, no `low_mid_cut`,
no `release`). Genres below the threshold get no entry in the dict. -/
def loadGenreTemplates (corpus : List TrackRecord) (genre : String) :
    Option GenreTemplate :=
  let rows := corpus.filter (fun r => r.genre == genre)
  if 5 ≤ rows.length then
    some
      { lufs_target := some (avgOf rows (·.integrated_lufs))
        dynamic_range_target := some (avgOf rows (·.dynamic_range_db))
        bass_emphasis := avgOf rows (·.bass_emphasis)
        high_emphasis := avgOf rows (·.high_emphasis)
        stereo_width := some (avgOf rows (·.stereo_width))
        reference_count := rows.length
        comp_ratio := some 2.5
        eq_bass_boost := some (max 0 (avgOf rows (·.bass_emphasis) - 0.3))
        eq_high_boost := none
        eq_low_mid_cut := none
        lim_ceiling := some (-0.8)
        lim_release := none }
  else none

/-- `_apply_genre_template`, `# Update LUFS target`. -/
def genreLufsStage (p : MasteringParameters) (t : GenreTemplate) : MasteringParameters :=
  match t.lufs_target with
  | some v => { p with target_lufs := v }
  | none => p

/-- `_apply_genre_template`, `# Update dynamic range handling`. -/
def genreDynamicsStage (p : MasteringParameters) (t : GenreTemplate) :
    MasteringParameters :=
  match t.dynamic_range_target with
  | some v =>
      if v > 10 then { p with preserve_dynamics := true, gentle_processing := true }
      else p
  | none => p

/-- `_apply_genre_template`, `# Update stereo width`. -/
def genreWidthStage (p : MasteringParameters) (t : GenreTemplate) : MasteringParameters :=
  match t.stereo_width with
  | some v => { p with stereo_width := max 0.8 (min 1.5 v) }
  | none => p

/-- `_apply_genre_template`, `# Bass adjustments`. -/
def genreBassBoostStage (p : MasteringParameters) (t : GenreTemplate) :
    MasteringParameters :=
  match t.eq_bass_boost with
  | some b =>
      if b > 0 then
        { p with eq_bands :=
            { p.eq_bands with
              bass := { p.eq_bands.bass with gain := p.eq_bands.bass.gain + b }
              sub_bass := { p.eq_bands.sub_bass with
                            gain := p.eq_bands.sub_bass.gain + b * 0.7 } } }
      else p
  | none => p

/-- `_apply_genre_template`, `# High frequency adjustments`. -/
def genreHighBoostStage (p : MasteringParameters) (t : GenreTemplate) :
    MasteringParameters :=
  match t.eq_high_boost with
  | some h =>
      if h > 0 then
        { p with eq_bands :=
            { p.eq_bands with
              presence := { p.eq_bands.presence with
                            gain := p.eq_bands.presence.gain + h }
              air := { p.eq_bands.air with gain := p.eq_bands.air.gain + h * 0.8 } } }
      else p
  | none => p

/-- `_apply_genre_template`, `# Low-mid cleanup`. -/
def genreLowMidCutStage (p : MasteringParameters) (t : GenreTemplate) :
    MasteringParameters :=
  match t.eq_low_mid_cut with
  | some c =>
      if c > 0 then
        { p with eq_bands :=
            { p.eq_bands with
              low_mid := { p.eq_bands.low_mid with
                           gain := p.eq_bands.low_mid.gain - c } } }
      else p
  | none => p

/-- `_apply_genre_template`, `# Apply compression recommendations`. -/
def genreCompressionStage (p : MasteringParameters) (t : GenreTemplate) :
    MasteringParameters :=
  match t.comp_ratio with
  | some r =>
      { p with multiband_compression :=
          { low := { p.multiband_compression.low with ratio := r }
            mid := { p.multiband_compression.mid with ratio := r }
            high := { p.multiband_compression.high with ratio := r } } }
  | none => p

/-- `_apply_genre_template`, limiting ceiling recommendation. -/
def genreCeilingStage (p : MasteringParameters) (t : GenreTemplate) :
    MasteringParameters :=
  match t.lim_ceiling with
  | some c => { p with limiter_ceiling := c }
  | none => p

/-- `_apply_genre_template`, limiting release recommendation. -/
def genreReleaseStage (p : MasteringParameters) (t : GenreTemplate) :
    MasteringParameters :=
  match t.lim_release with
  | some r => { p with limiter_release := r }
  | none => p

/-- `_apply_genre_template`: the sequential dict-guarded updates of the
source, in source order. -/
def applyGenreTemplate (p : MasteringParameters) (t : GenreTemplate) :
    MasteringParameters :=
  genreReleaseStage
    (genreCeilingStage
      (genreCompressionStage
        (genreLowMidCutStage
          (genreHighBoostStage
            (genreBassBoostStage
              (genreWidthStage (genreDynamicsStage (genreLufsStage p t) t) t) t) t) t) t) t) t

/-- First block of `_apply_track_specific_optimizations`
(`# Adjust based on current loudness`). -/
def trackLoudnessStep (p : MasteringParameters) (a : Analysis) :
    MasteringParameters :=
  if lufsOf a > -12 then
    { p with gentle_processing := true
             limiter_ceiling := max (-1.0) p.limiter_ceiling
             target_lufs := max (-13.0) (lufsOf a - 1.0) }
  else if lufsOf a < -20 then
    { p with target_lufs := min (-13.0) p.target_lufs }
  else p

/-- Second block (`# Adjust based on dynamic range`). -/
def trackDynamicsStep (p : MasteringParameters) (a : Analysis) :
    MasteringParameters :=
  if drOf a > 15 then
    { p with preserve_dynamics := true
             gentle_processing := true
             multiband_compression :=
               { low := { p.multiband_compression.low with
                          ratio := p.multiband_compression.low.ratio * 0.8
                          threshold := p.multiband_compression.low.threshold - 2 }
                 mid := { p.multiband_compression.mid with
                          ratio := p.multiband_compression.mid.ratio * 0.8
                          threshold := p.multiband_compression.mid.threshold - 2 }
                 high := { p.multiband_compression.high with
                           ratio := p.multiband_compression.high.ratio * 0.8
                           threshold := p.multiband_compression.high.threshold - 2 } } }
  else if drOf a < 4 then
    { p with gentle_processing := true
             target_lufs := max (-15.0) p.target_lufs }
  else p

/-- Third block (`# Adjust EQ based on frequency analysis`, bass emphasis). -/
def trackBassStep (p : MasteringParameters) (a : Analysis) :
    MasteringParameters :=
  if bassOf a > 0.45 then
    { p with
      eq_bands :=
        { p.eq_bands with
          low_mid := { p.eq_bands.low_mid with gain := p.eq_bands.low_mid.gain - 1.0 } },
      bass_mono_freq := min 120 (p.bass_mono_freq + 20) }
  else if bassOf a < 0.25 then
    { p with eq_bands :=
        { p.eq_bands with
          bass := { p.eq_bands.bass with gain := p.eq_bands.bass.gain + 1.0 }
          sub_bass := { p.eq_bands.sub_bass with
                        gain := p.eq_bands.sub_bass.gain + 0.5 } } }
  else p

/-- Fourth block (high emphasis). -/
def trackHighStep (p : MasteringParameters) (a : Analysis) :
    MasteringParameters :=
  if highOf a > 0.4 then
    { p with eq_bands :=
        { p.eq_bands with
          presence := { p.eq_bands.presence with
                        gain := max 0.0 (p.eq_bands.presence.gain - 0.5) } } }
  else if highOf a < 0.2 then
    { p with eq_bands :=
        { p.eq_bands with
          presence := { p.eq_bands.presence with
                        gain := p.eq_bands.presence.gain + 1.0 }
          air := { p.eq_bands.air with gain := p.eq_bands.air.gain + 0.8 } } }
  else p

/-- Fifth block (`# Adjust stereo processing`). -/
def trackStereoStep (p : MasteringParameters) (a : Analysis) :
    MasteringParameters :=
  if widthOf a > 0.8 then
    { p with stereo_width := p.stereo_width * 0.9 }
  else if widthOf a < 0.4 then
    { p with stereo_width := min 1.3 (p.stereo_width + 0.2) }
  else p

/-- `_apply_track_specific_optimizations`: the five blocks in source order. -/
def applyTrackSpecificOptimizations (p : MasteringParameters) (a : Analysis) :
    MasteringParameters :=
  trackStereoStep
    (trackHighStep (trackBassStep (trackDynamicsStep (trackLoudnessStep p a) a) a) a) a

/-- `_optimize_mastering_parameters`: base-profile selection, the genre
overlay when the template store has the (lowercased) genre, then the
track-specific overlay. The template store is passed as a function, as
`self.genre_templates` is fixed at engine construction. -/
def optimizeMasteringParameters (store : String → Option GenreTemplate)
    (a : Analysis) : MasteringParameters :=
  let base := getBaseProfile (profileOf a)
  let withGenre := match store (genreKey a) with
    | some t => applyGenreTemplate base t
    | none => base
  applyTrackSpecificOptimizations withGenre a

/-- The §3 invariants of the ParameterSet data model: target LUFS in
[-18, -8], stereo width in [0.8, 1.5], every multiband and bus compression
ratio at least 1, every EQ band gain of magnitude at most 6 dB. -/
def paramsValid (p : MasteringParameters) : Prop :=
  -18 ≤ p.target_lufs ∧ p.target_lufs ≤ -8 ∧
  0.8 ≤ p.stereo_width ∧ p.stereo_width ≤ 1.5 ∧
  1 ≤ p.multiband_compression.low.ratio ∧
  1 ≤ p.multiband_compression.mid.ratio ∧
  1 ≤ p.multiband_compression.high.ratio ∧
  1 ≤ p.bus_compression.ratio ∧
  |p.eq_bands.sub_bass.gain| ≤ 6 ∧ |p.eq_bands.bass.gain| ≤ 6 ∧
  |p.eq_bands.low_mid.gain| ≤ 6 ∧ |p.eq_bands.mid.gain| ≤ 6 ∧
  |p.eq_bands.high_mid.gain| ≤ 6 ∧ |p.eq_bands.presence.gain| ≤ 6 ∧
  |p.eq_bands.air.gain| ≤ 6

instance (p : MasteringParameters) : Decidable (paramsValid p) := by
  unfold paramsValid; infer_instance

/-- One stage of the compiled processing chain. Each constructor records the
parameters interpolated into the corresponding FFmpeg filter fragment of
`_build_intelligent_filter_chain`; the constant arguments of the source
(`harmonics`, `scope`, makeup gains, the crossover frequencies, the
`loudnorm` and `alimiter` constants) are fixed in the mapping below. -/
inductive Stage where
  | highpass (f : ℚ)
  | lowpass (f : ℚ)
  | saturation (amount : ℚ)
  | eqStage (band : String) (freq : ℚ) (q : ℚ) (gain : ℚ)
  | multiband (low mid high : MBBand)
  | stereo (m : ℚ)
  | busStage (c : BusCompression)
  | harmonic (amount : ℚ)
  | loudnorm (i : ℚ)
  | limiter (ceiling : ℚ) (release : ℚ)
deriving DecidableEq

/-- The stage an EQ band contributes: one `equalizer` filter when
`abs(gain) > 0.1`, nothing otherwise (`# Only apply significant adjustments`). -/
def bandStage (name : String) (b : EqBand) : List Stage :=
  if 0.1 < |b.gain| then [Stage.eqStage name b.freq b.q b.gain] else []

/-- The EQ section of the chain: the seven bands in dict order. -/
def eqSection (p : MasteringParameters) : List Stage :=
  bandStage "sub_bass" p.eq_bands.sub_bass ++ bandStage "bass" p.eq_bands.bass ++
  bandStage "low_mid" p.eq_bands.low_mid ++ bandStage "mid" p.eq_bands.mid ++
  bandStage "high_mid" p.eq_bands.high_mid ++ bandStage "presence" p.eq_bands.presence ++
  bandStage "air" p.eq_bands.air

/-- `_build_intelligent_filter_chain`: the ordered stage list the source
joins into one FFmpeg filter string. The source performs no validation and
has no error path: every `MasteringParameters` compiles to a chain. -/
def buildIntelligentFilterChain (p : MasteringParameters) : List Stage :=
  [Stage.highpass p.highpass_freq, Stage.lowpass p.lowpass_freq] ++
  (if p.saturation_amount > 0 then [Stage.saturation p.saturation_amount] else []) ++
  eqSection p ++
  [Stage.multiband p.multiband_compression.low p.multiband_compression.mid
      p.multiband_compression.high] ++
  (if p.stereo_width ≠ 1.0 then [Stage.stereo (p.stereo_width - 1.0)] else []) ++
  [Stage.busStage p.bus_compression] ++
  (if p.harmonic_enhancement > 0 then [Stage.harmonic p.harmonic_enhancement] else []) ++
  [Stage.loudnorm p.target_lufs, Stage.limiter p.limiter_ceiling p.limiter_release]

/-- Whether a stage is the equalizer stage of the named band. -/
def isBandStage (name : String) : Stage → Bool
  | Stage.eqStage n _ _ _ => n == name
  | _ => false

/-- How many equalizer stages for the named band a chain holds. -/
def bandStageCount (name : String) (chain : List Stage) : ℕ :=
  chain.countP (isBandStage name)

/-- One entry of `decisions["eq_adjustments"]` in `_explain_ai_decisions`
(its reason text is a constant). -/
structure EqAdjustment where
  band : String
  frequency : ℚ
  gain : ℚ
deriving DecidableEq

/-- The output of `_explain_ai_decisions`, keeping every value the source
interpolates into the decisions dict (the fixed reason phrases around them
carry no further information). -/
structure AIDecisions where
  target_lufs_value : ℚ
  target_lufs_genre : String
  preserve_dynamics_value : Bool
  stereo_width_value : ℚ
  stereo_width_measured : Option ℚ
  multiband_ratios : List ℚ
  eq_adjustments : List EqAdjustment
deriving DecidableEq

/-- The `eq_adjustments` entry of one band: present when `abs(gain) > 0.5`. -/
def bandAdjustment (name : String) (b : EqBand) : List EqAdjustment :=
  if 0.5 < |b.gain| then [{ band := name, frequency := b.freq, gain := b.gain }] else []

/-- `_explain_ai_decisions`. -/
def explainAIDecisions (a : Analysis) (p : MasteringParameters) : AIDecisions :=
  { target_lufs_value := p.target_lufs
    target_lufs_genre := a.genre.getD "unknown"
    preserve_dynamics_value := p.preserve_dynamics
    stereo_width_value := p.stereo_width
    stereo_width_measured := a.stereo_width
    multiband_ratios := [p.multiband_compression.low.ratio,
                         p.multiband_compression.mid.ratio,
                         p.multiband_compression.high.ratio]
    eq_adjustments :=
      bandAdjustment "sub_bass" p.eq_bands.sub_bass ++
      bandAdjustment "bass" p.eq_bands.bass ++
      bandAdjustment "low_mid" p.eq_bands.low_mid ++
      bandAdjustment "mid" p.eq_bands.mid ++
      bandAdjustment "high_mid" p.eq_bands.high_mid ++
      bandAdjustment "presence" p.eq_bands.presence ++
      bandAdjustment "air" p.eq_bands.air }

/-- What `analyze_and_master` hands back to the caller from the resolution
core: the optimized parameters and the decisions report
(`optimal_parameters` and `ai_decisions` of its result dict). -/
def resolveReport (store : String → Option GenreTemplate) (a : Analysis) :
    MasteringParameters × AIDecisions :=
  let p := optimizeMasteringParameters store a
  (p, explainAIDecisions a p)

/-- An analysis record with none of the measurement sections: every
extraction falls back to its `.get` default. -/
def emptyAnalysis : Analysis :=
  { genre := none, mastering_profile := none, integrated_lufs := none,
    dynamic_range_db := none, bass_emphasis := none, high_emphasis := none,
    stereo_width := none }

lemma trackLoudnessStep_fields (p : MasteringParameters) (a : Analysis) :
    (trackLoudnessStep p a).eq_bands = p.eq_bands ∧
    (trackLoudnessStep p a).multiband_compression = p.multiband_compression ∧
    (trackLoudnessStep p a).bus_compression = p.bus_compression ∧
    (trackLoudnessStep p a).stereo_width = p.stereo_width ∧
    (trackLoudnessStep p a).preserve_dynamics = p.preserve_dynamics := by
  unfold trackLoudnessStep
  split_ifs <;> exact ⟨rfl, rfl, rfl, rfl, rfl⟩

lemma trackDynamicsStep_fields (p : MasteringParameters) (a : Analysis) :
    (trackDynamicsStep p a).eq_bands = p.eq_bands ∧
    (trackDynamicsStep p a).bus_compression = p.bus_compression ∧
    (trackDynamicsStep p a).stereo_width = p.stereo_width ∧
    (trackDynamicsStep p a).limiter_ceiling = p.limiter_ceiling := by
  unfold trackDynamicsStep
  split_ifs <;> exact ⟨rfl, rfl, rfl, rfl⟩

lemma trackBassStep_fields (p : MasteringParameters) (a : Analysis) :
    (trackBassStep p a).target_lufs = p.target_lufs ∧
    (trackBassStep p a).stereo_width = p.stereo_width ∧
    (trackBassStep p a).multiband_compression = p.multiband_compression ∧
    (trackBassStep p a).bus_compression = p.bus_compression ∧
    (trackBassStep p a).gentle_processing = p.gentle_processing ∧
    (trackBassStep p a).limiter_ceiling = p.limiter_ceiling := by
  unfold trackBassStep
  split_ifs <;> exact ⟨rfl, rfl, rfl, rfl, rfl, rfl⟩

lemma trackHighStep_fields (p : MasteringParameters) (a : Analysis) :
    (trackHighStep p a).target_lufs = p.target_lufs ∧
    (trackHighStep p a).stereo_width = p.stereo_width ∧
    (trackHighStep p a).multiband_compression = p.multiband_compression ∧
    (trackHighStep p a).bus_compression = p.bus_compression ∧
    (trackHighStep p a).gentle_processing = p.gentle_processing ∧
    (trackHighStep p a).limiter_ceiling = p.limiter_ceiling := by
  unfold trackHighStep
  split_ifs <;> exact ⟨rfl, rfl, rfl, rfl, rfl, rfl⟩

lemma trackStereoStep_fields (p : MasteringParameters) (a : Analysis) :
    (trackStereoStep p a).target_lufs = p.target_lufs ∧
    (trackStereoStep p a).eq_bands = p.eq_bands ∧
    (trackStereoStep p a).multiband_compression = p.multiband_compression ∧
    (trackStereoStep p a).bus_compression = p.bus_compression ∧
    (trackStereoStep p a).gentle_processing = p.gentle_processing ∧
    (trackStereoStep p a).limiter_ceiling = p.limiter_ceiling := by
  unfold trackStereoStep
  split_ifs <;> exact ⟨rfl, rfl, rfl, rfl, rfl, rfl⟩

lemma trackDynamicsStep_gentle_mono (p : MasteringParameters) (a : Analysis)
    (h : p.gentle_processing = true) :
    (trackDynamicsStep p a).gentle_processing = true := by
  unfold trackDynamicsStep
  split_ifs <;> first | rfl | exact h

lemma trackDynamicsStep_target_of_le (p : MasteringParameters) (a : Analysis)
    (h : -15 ≤ p.target_lufs) :
    (trackDynamicsStep p a).target_lufs = p.target_lufs := by
  unfold trackDynamicsStep
  split_ifs
  · rfl
  · exact max_eq_right (by linarith)
  · rfl

/-- Bounds on the base profile under which the track-specific overlay keeps
every §3 invariant; every profile of the catalog satisfies them. -/
def baseOk (p : MasteringParameters) : Prop :=
  -16 ≤ p.target_lufs ∧ p.target_lufs ≤ -11.5 ∧
  1 ≤ p.stereo_width ∧ p.stereo_width ≤ 1.35 ∧
  1.25 ≤ p.multiband_compression.low.ratio ∧
  1.25 ≤ p.multiband_compression.mid.ratio ∧
  1.25 ≤ p.multiband_compression.high.ratio ∧
  1 ≤ p.bus_compression.ratio ∧
  |p.eq_bands.sub_bass.gain| ≤ 2.5 ∧ |p.eq_bands.bass.gain| ≤ 2.5 ∧
  |p.eq_bands.low_mid.gain| ≤ 2.5 ∧ |p.eq_bands.mid.gain| ≤ 2.5 ∧
  |p.eq_bands.high_mid.gain| ≤ 2.5 ∧ |p.eq_bands.presence.gain| ≤ 2.5 ∧
  |p.eq_bands.air.gain| ≤ 2.5

lemma getBaseProfile_baseOk (s : String) : baseOk (getBaseProfile s) := by
  unfold getBaseProfile
  split_ifs <;>
    norm_num [baseOk, modern_pop, bass_heavy_modern, smooth_vocal_focus,
      aggressive_urban, log_drum_emphasis, dynamic_preservation, defaultParameters,
      defaultBus, defaultMultiband, defaultEqBands, abs_eq_max_neg]

lemma target_bound_after_loudness (p : MasteringParameters) (a : Analysis)
    (hlo : -16 ≤ p.target_lufs) (hhi : p.target_lufs ≤ -11.5) (hl : lufsOf a ≤ -7) :
    -16 ≤ (trackLoudnessStep p a).target_lufs ∧
    (trackLoudnessStep p a).target_lufs ≤ -8 := by
  unfold trackLoudnessStep
  split_ifs with h1 h2
  · constructor
    · show (-16 : ℚ) ≤ max (-13.0) (lufsOf a - 1.0)
      calc (-16 : ℚ) ≤ -13.0 := by norm_num
        _ ≤ _ := le_max_left _ _
    · show max (-13.0) (lufsOf a - 1.0) ≤ -8
      exact max_le (by norm_num) (by linarith)
  · constructor
    · show (-16 : ℚ) ≤ min (-13.0) p.target_lufs
      exact le_min (by norm_num) hlo
    · show min (-13.0) p.target_lufs ≤ -8
      calc min (-13.0) p.target_lufs ≤ -13.0 := min_le_left _ _
        _ ≤ -8 := by norm_num
  · exact ⟨hlo, by linarith⟩

lemma target_bound_after_dynamics (p : MasteringParameters) (a : Analysis)
    (hlo : -16 ≤ p.target_lufs) (hhi : p.target_lufs ≤ -8) :
    -18 ≤ (trackDynamicsStep p a).target_lufs ∧
    (trackDynamicsStep p a).target_lufs ≤ -8 := by
  unfold trackDynamicsStep
  split_ifs with h1 h2
  · exact ⟨by linarith, hhi⟩
  · constructor
    · show (-18 : ℚ) ≤ max (-15.0) p.target_lufs
      calc (-18 : ℚ) ≤ -15.0 := by norm_num
        _ ≤ _ := le_max_left _ _
    · show max (-15.0) p.target_lufs ≤ -8
      exact max_le (by norm_num) hhi
  · exact ⟨by linarith, hhi⟩

lemma ratio_bound_after_dynamics (p : MasteringParameters) (a : Analysis)
    (hl : 1.25 ≤ p.multiband_compression.low.ratio)
    (hm : 1.25 ≤ p.multiband_compression.mid.ratio)
    (hh : 1.25 ≤ p.multiband_compression.high.ratio) :
    1 ≤ (trackDynamicsStep p a).multiband_compression.low.ratio ∧
    1 ≤ (trackDynamicsStep p a).multiband_compression.mid.ratio ∧
    1 ≤ (trackDynamicsStep p a).multiband_compression.high.ratio := by
  unfold trackDynamicsStep
  split_ifs with h1 h2
  · refine ⟨?_, ?_, ?_⟩ <;>
      · show (1 : ℚ) ≤ _ * 0.8
        linarith
  · exact ⟨by linarith, by linarith, by linarith⟩
  · exact ⟨by linarith, by linarith, by linarith⟩

lemma width_bound_after_stereo (p : MasteringParameters) (a : Analysis)
    (hlo : 1 ≤ p.stereo_width) (hhi : p.stereo_width ≤ 1.35) :
    0.8 ≤ (trackStereoStep p a).stereo_width ∧
    (trackStereoStep p a).stereo_width ≤ 1.5 := by
  unfold trackStereoStep
  split_ifs with h1 h2
  · constructor
    · show (0.8 : ℚ) ≤ p.stereo_width * 0.9
      linarith
    · show p.stereo_width * 0.9 ≤ 1.5
      linarith
  · constructor
    · show (0.8 : ℚ) ≤ min 1.3 (p.stereo_width + 0.2)
      exact le_min (by norm_num) (by linarith)
    · show min 1.3 (p.stereo_width + 0.2) ≤ 1.5
      calc min 1.3 (p.stereo_width + 0.2) ≤ 1.3 := min_le_left _ _
        _ ≤ 1.5 := by norm_num
  · exact ⟨by linarith, by linarith⟩

lemma gain_bound_after_bass (p : MasteringParameters) (a : Analysis)
    (h1 : |p.eq_bands.sub_bass.gain| ≤ 2.5) (h2 : |p.eq_bands.bass.gain| ≤ 2.5)
    (h3 : |p.eq_bands.low_mid.gain| ≤ 2.5) :
    |(trackBassStep p a).eq_bands.sub_bass.gain| ≤ 3 ∧
    |(trackBassStep p a).eq_bands.bass.gain| ≤ 3.5 ∧
    |(trackBassStep p a).eq_bands.low_mid.gain| ≤ 3.5 ∧
    (trackBassStep p a).eq_bands.mid = p.eq_bands.mid ∧
    (trackBassStep p a).eq_bands.high_mid = p.eq_bands.high_mid ∧
    (trackBassStep p a).eq_bands.presence = p.eq_bands.presence ∧
    (trackBassStep p a).eq_bands.air = p.eq_bands.air := by
  rw [abs_le] at h1 h2 h3
  unfold trackBassStep
  split_ifs <;>
    refine ⟨by rw [abs_le]; constructor <;> · show (_ : ℚ) ≤ _; linarith,
            by rw [abs_le]; constructor <;> · show (_ : ℚ) ≤ _; linarith,
            by rw [abs_le]; constructor <;> · show (_ : ℚ) ≤ _; linarith,
            rfl, rfl, rfl, rfl⟩

lemma gain_bound_after_high (p : MasteringParameters) (a : Analysis)
    (h1 : |p.eq_bands.presence.gain| ≤ 2.5) (h2 : |p.eq_bands.air.gain| ≤ 2.5) :
    |(trackHighStep p a).eq_bands.presence.gain| ≤ 3.5 ∧
    |(trackHighStep p a).eq_bands.air.gain| ≤ 3.5 ∧
    (trackHighStep p a).eq_bands.sub_bass = p.eq_bands.sub_bass ∧
    (trackHighStep p a).eq_bands.bass = p.eq_bands.bass ∧
    (trackHighStep p a).eq_bands.low_mid = p.eq_bands.low_mid ∧
    (trackHighStep p a).eq_bands.mid = p.eq_bands.mid ∧
    (trackHighStep p a).eq_bands.high_mid = p.eq_bands.high_mid := by
  rw [abs_le] at h1 h2
  unfold trackHighStep
  split_ifs
  · refine ⟨?_, by rw [abs_le]; constructor <;> · show (_ : ℚ) ≤ _; linarith,
      rfl, rfl, rfl, rfl, rfl⟩
    show |max 0.0 (p.eq_bands.presence.gain - 0.5)| ≤ 3.5
    rw [abs_le]
    constructor
    · calc (-3.5 : ℚ) ≤ 0.0 := by norm_num
        _ ≤ _ := le_max_left _ _
    · exact max_le (by norm_num) (by linarith)
  · exact ⟨by rw [abs_le]; constructor <;> · show (_ : ℚ) ≤ _; linarith,
      by rw [abs_le]; constructor <;> · show (_ : ℚ) ≤ _; linarith,
      rfl, rfl, rfl, rfl, rfl⟩
  · exact ⟨by rw [abs_le]; exact ⟨by linarith, by linarith⟩,
      by rw [abs_le]; exact ⟨by linarith, by linarith⟩, rfl, rfl, rfl, rfl, rfl⟩

lemma overlay_valid_of_baseOk (p : MasteringParameters) (a : Analysis)
    (hb : baseOk p) (hl : lufsOf a ≤ -7) :
    paramsValid (applyTrackSpecificOptimizations p a) := by
  obtain ⟨ht1, ht2, hw1, hw2, hr1, hr2, hr3, hbus, hg1, hg2, hg3, hg4, hg5, hg6, hg7⟩ := hb
  obtain ⟨e1eq, e1mb, e1bus, e1w, -⟩ := trackLoudnessStep_fields p a
  obtain ⟨e2eq, e2bus, e2w, -⟩ := trackDynamicsStep_fields (trackLoudnessStep p a) a
  obtain ⟨e3t, e3w, e3mb, e3bus, -, -⟩ :=
    trackBassStep_fields (trackDynamicsStep (trackLoudnessStep p a) a) a
  obtain ⟨e4t, e4w, e4mb, e4bus, -, -⟩ :=
    trackHighStep_fields (trackBassStep (trackDynamicsStep (trackLoudnessStep p a) a) a) a
  obtain ⟨e5t, e5eq, e5mb, e5bus, -, -⟩ :=
    trackStereoStep_fields
      (trackHighStep (trackBassStep (trackDynamicsStep (trackLoudnessStep p a) a) a) a) a
  obtain ⟨t1lo, t1hi⟩ := target_bound_after_loudness p a ht1 ht2 hl
  obtain ⟨t2lo, t2hi⟩ := target_bound_after_dynamics (trackLoudnessStep p a) a t1lo t1hi
  have r1 : 1.25 ≤ (trackLoudnessStep p a).multiband_compression.low.ratio := by
    rw [e1mb]; exact hr1
  have r2 : 1.25 ≤ (trackLoudnessStep p a).multiband_compression.mid.ratio := by
    rw [e1mb]; exact hr2
  have r3 : 1.25 ≤ (trackLoudnessStep p a).multiband_compression.high.ratio := by
    rw [e1mb]; exact hr3
  obtain ⟨q1, q2, q3⟩ := ratio_bound_after_dynamics (trackLoudnessStep p a) a r1 r2 r3
  have g1 : |(trackDynamicsStep (trackLoudnessStep p a) a).eq_bands.sub_bass.gain| ≤ 2.5 := by
    rw [e2eq, e1eq]; exact hg1
  have g2 : |(trackDynamicsStep (trackLoudnessStep p a) a).eq_bands.bass.gain| ≤ 2.5 := by
    rw [e2eq, e1eq]; exact hg2
  have g3 : |(trackDynamicsStep (trackLoudnessStep p a) a).eq_bands.low_mid.gain| ≤ 2.5 := by
    rw [e2eq, e1eq]; exact hg3
  obtain ⟨b1, b2, b3, bmid, bhmid, bpres, bair⟩ :=
    gain_bound_after_bass (trackDynamicsStep (trackLoudnessStep p a) a) a g1 g2 g3
  have g6' : |(trackBassStep (trackDynamicsStep (trackLoudnessStep p a) a) a).eq_bands.presence.gain| ≤ 2.5 := by
    rw [bpres, e2eq, e1eq]; exact hg6
  have g7' : |(trackBassStep (trackDynamicsStep (trackLoudnessStep p a) a) a).eq_bands.air.gain| ≤ 2.5 := by
    rw [bair, e2eq, e1eq]; exact hg7
  obtain ⟨h4p, h4a, s4sb, s4b, s4lm, s4m, s4hm⟩ :=
    gain_bound_after_high (trackBassStep (trackDynamicsStep (trackLoudnessStep p a) a) a) a g6' g7'
  have w4lo : 1 ≤ (trackHighStep (trackBassStep (trackDynamicsStep (trackLoudnessStep p a) a) a) a).stereo_width := by
    rw [e4w, e3w, e2w, e1w]; exact hw1
  have w4hi : (trackHighStep (trackBassStep (trackDynamicsStep (trackLoudnessStep p a) a) a) a).stereo_width ≤ 1.35 := by
    rw [e4w, e3w, e2w, e1w]; exact hw2
  obtain ⟨w5lo, w5hi⟩ :=
    width_bound_after_stereo
      (trackHighStep (trackBassStep (trackDynamicsStep (trackLoudnessStep p a) a) a) a) a w4lo w4hi
  unfold applyTrackSpecificOptimizations
  refine ⟨?_, ?_, w5lo, w5hi, ?_, ?_, ?_, ?_, ?_, ?_, ?_, ?_, ?_, ?_, ?_⟩
  · rw [e5t, e4t, e3t]; linarith
  · rw [e5t, e4t, e3t]; linarith
  · rw [e5mb, e4mb, e3mb]; exact q1
  · rw [e5mb, e4mb, e3mb]; exact q2
  · rw [e5mb, e4mb, e3mb]; exact q3
  · rw [e5bus, e4bus, e3bus, e2bus, e1bus]; exact hbus
  · rw [e5eq, s4sb]; linarith
  · rw [e5eq, s4b]; linarith
  · rw [e5eq, s4lm]; linarith
  · rw [e5eq, s4m, bmid, e2eq, e1eq]; linarith
  · rw [e5eq, s4hm, bhmid, e2eq, e1eq]; linarith
  · rw [e5eq]; linarith
  · rw [e5eq]; linarith

/-- C10: for an analysis record lacking the loudness, dynamics, frequency
and stereo sections, the extraction defaults are -18 LUFS, 10 dB dynamic
range, 0.3 bass emphasis, 0.3 high emphasis and 0.7 stereo width; none of
the overlay branches fires on them, so the track-specific overlay returns
every parameter unchanged. -/
theorem empty_sections_overlay_identity :
    lufsOf emptyAnalysis = -18.0 ∧ drOf emptyAnalysis = 10.0 ∧
    bassOf emptyAnalysis = 0.3 ∧ highOf emptyAnalysis = 0.3 ∧
    widthOf emptyAnalysis = 0.7 ∧
    ∀ p : MasteringParameters, applyTrackSpecificOptimizations p emptyAnalysis = p := by
  refine ⟨rfl, rfl, rfl, rfl, rfl, fun p => ?_⟩
  norm_num [applyTrackSpecificOptimizations, trackLoudnessStep, trackDynamicsStep,
    trackBassStep, trackHighStep, trackStereoStep, lufsOf, drOf, bassOf, highOf,
    widthOf, emptyAnalysis]

/-- C6 (amended statement is the claim itself): whenever the measured
integrated LUFS exceeds -12, the track-specific overlay forces
gentle-processing, raises the limiter ceiling to at least -1.0, and the
target LUFS leaving the overlay is exactly max(-13, measured - 1). -/
theorem loud_track_overlay (p : MasteringParameters) (a : Analysis)
    (h : lufsOf a > -12) :
    (applyTrackSpecificOptimizations p a).gentle_processing = true ∧
    -1.0 ≤ (applyTrackSpecificOptimizations p a).limiter_ceiling ∧
    (applyTrackSpecificOptimizations p a).target_lufs = max (-13.0) (lufsOf a - 1.0) := by
  obtain ⟨-, -, -, c2⟩ := trackDynamicsStep_fields (trackLoudnessStep p a) a
  obtain ⟨t3, -, -, -, g3, c3⟩ :=
    trackBassStep_fields (trackDynamicsStep (trackLoudnessStep p a) a) a
  obtain ⟨t4, -, -, -, g4, c4⟩ :=
    trackHighStep_fields (trackBassStep (trackDynamicsStep (trackLoudnessStep p a) a) a) a
  obtain ⟨t5, -, -, -, g5, c5⟩ :=
    trackStereoStep_fields
      (trackHighStep (trackBassStep (trackDynamicsStep (trackLoudnessStep p a) a) a) a) a
  have e1g : (trackLoudnessStep p a).gentle_processing = true := by
    unfold trackLoudnessStep; rw [if_pos h]
  have e1c : (trackLoudnessStep p a).limiter_ceiling = max (-1.0) p.limiter_ceiling := by
    unfold trackLoudnessStep; rw [if_pos h]
  have e1t : (trackLoudnessStep p a).target_lufs = max (-13.0) (lufsOf a - 1.0) := by
    unfold trackLoudnessStep; rw [if_pos h]
  have g2 : (trackDynamicsStep (trackLoudnessStep p a) a).gentle_processing = true :=
    trackDynamicsStep_gentle_mono _ a e1g
  have ht15 : -15 ≤ (trackLoudnessStep p a).target_lufs := by
    rw [e1t]
    calc (-15 : ℚ) ≤ -13.0 := by norm_num
      _ ≤ _ := le_max_left _ _
  have t2 : (trackDynamicsStep (trackLoudnessStep p a) a).target_lufs =
      max (-13.0) (lufsOf a - 1.0) := by
    rw [trackDynamicsStep_target_of_le _ a ht15, e1t]
  unfold applyTrackSpecificOptimizations
  refine ⟨?_, ?_, ?_⟩
  · rw [g5, g4, g3]; exact g2
  · rw [c5, c4, c3, c2, e1c]; exact le_max_left _ _
  · rw [t5, t4, t3]; exact t2

/-- The spec's Scenario C measurement: integrated LUFS -8, everything else
absent. -/
def scenarioC : Analysis :=
  { genre := none, mastering_profile := none, integrated_lufs := some (-8),
    dynamic_range_db := none, bass_emphasis := none, high_emphasis := none,
    stereo_width := none }

/-- Witness for C6 at Scenario C: a track measured at -8 LUFS forces
gentle-processing and yields target LUFS max(-13, -9) = -9. -/
theorem loud_track_overlay_witness :
    lufsOf scenarioC > -12 ∧
    ((applyTrackSpecificOptimizations modern_pop scenarioC).gentle_processing = true ∧
     -1.0 ≤ (applyTrackSpecificOptimizations modern_pop scenarioC).limiter_ceiling ∧
     (applyTrackSpecificOptimizations modern_pop scenarioC).target_lufs =
       max (-13.0) (lufsOf scenarioC - 1.0)) :=
  ⟨by norm_num [lufsOf, scenarioC],
   loud_track_overlay modern_pop scenarioC (by norm_num [lufsOf, scenarioC])⟩

/-- C7 counterexample input: a measurement whose only datum is a dynamic
range of 3 dB. -/
def squashedAnalysis : Analysis :=
  { genre := none, mastering_profile := none, integrated_lufs := none,
    dynamic_range_db := some 3, bass_emphasis := none, high_emphasis := none,
    stereo_width := none }

/-- C7 counterexample: on a track with dynamic range 3 dB (< 4) starting
from the bass_heavy_modern base profile (target -12 LUFS), the overlay
computes max(-15, -12) = -12, a target LOUDER than -15: the code floors the
target at -15 instead of capping it, so "the resulting target LUFS is never
louder than -15.0" is false. -/
theorem squashed_track_cap_refuted :
    drOf squashedAnalysis < 4 ∧
    (applyTrackSpecificOptimizations bass_heavy_modern squashedAnalysis).target_lufs = -12 ∧
    ¬ (applyTrackSpecificOptimizations bass_heavy_modern squashedAnalysis).target_lufs ≤ -15 := by
  norm_num [applyTrackSpecificOptimizations, trackLoudnessStep, trackDynamicsStep,
    trackBassStep, trackHighStep, trackStereoStep, lufsOf, drOf, bassOf, highOf,
    widthOf, squashedAnalysis, bass_heavy_modern, defaultParameters]

/-- C7 amended: for a measured dynamic range below 4 dB the overlay sets
gentle-processing to true and applies max(-15, target): the resulting
target LUFS is never quieter (lower) than -15.0. -/
theorem squashed_track_overlay (p : MasteringParameters) (a : Analysis)
    (h : drOf a < 4) :
    (applyTrackSpecificOptimizations p a).gentle_processing = true ∧
    -15.0 ≤ (applyTrackSpecificOptimizations p a).target_lufs := by
  obtain ⟨t3, -, -, -, g3, -⟩ :=
    trackBassStep_fields (trackDynamicsStep (trackLoudnessStep p a) a) a
  obtain ⟨t4, -, -, -, g4, -⟩ :=
    trackHighStep_fields (trackBassStep (trackDynamicsStep (trackLoudnessStep p a) a) a) a
  obtain ⟨t5, -, -, -, g5, -⟩ :=
    trackStereoStep_fields
      (trackHighStep (trackBassStep (trackDynamicsStep (trackLoudnessStep p a) a) a) a) a
  have h15 : ¬ drOf a > 15 := by linarith
  have e2g : (trackDynamicsStep (trackLoudnessStep p a) a).gentle_processing = true := by
    unfold trackDynamicsStep; rw [if_neg h15, if_pos h]
  have e2t : -15.0 ≤ (trackDynamicsStep (trackLoudnessStep p a) a).target_lufs := by
    unfold trackDynamicsStep; rw [if_neg h15, if_pos h]
    exact le_max_left _ _
  unfold applyTrackSpecificOptimizations
  refine ⟨?_, ?_⟩
  · rw [g5, g4, g3]; exact e2g
  · rw [t5, t4, t3]; exact e2t

/-- Witness for the amended C7: with dynamic range 3 dB the overlay forces
gentle-processing and the target stays at or above -15 LUFS. -/
theorem squashed_track_overlay_witness :
    drOf squashedAnalysis < 4 ∧
    ((applyTrackSpecificOptimizations modern_pop squashedAnalysis).gentle_processing = true ∧
     -15.0 ≤ (applyTrackSpecificOptimizations modern_pop squashedAnalysis).target_lufs) :=
  ⟨by norm_num [drOf, squashedAnalysis],
   squashed_track_overlay modern_pop squashedAnalysis (by norm_num [drOf, squashedAnalysis])⟩

/-- C1 amended: parameter resolution applies no final clamp pass; the §3
invariants do hold whenever no genre template applies to the (lowercased)
genre hint and the measured integrated LUFS is at most -7: every base
profile of the catalog satisfies the bounds and the track-specific overlay
then preserves them. -/
theorem resolution_invariants_without_template (store : String → Option GenreTemplate)
    (a : Analysis) (hg : store (genreKey a) = none) (hl : lufsOf a ≤ -7) :
    paramsValid (optimizeMasteringParameters store a) := by
  unfold optimizeMasteringParameters
  rw [hg]
  exact overlay_valid_of_baseOk _ a (getBaseProfile_baseOk _) hl

/-- Witness for the amended C1: the empty template store and an analysis
with no measurement sections (default LUFS -18 ≤ -7). -/
theorem resolution_invariants_without_template_witness :
    (loadGenreTemplates [] (genreKey emptyAnalysis) = none ∧ lufsOf emptyAnalysis ≤ -7) ∧
    paramsValid (optimizeMasteringParameters (loadGenreTemplates []) emptyAnalysis) :=
  ⟨⟨by simp [loadGenreTemplates], by norm_num [lufsOf, emptyAnalysis]⟩,
   resolution_invariants_without_template (loadGenreTemplates []) emptyAnalysis
     (by simp [loadGenreTemplates]) (by norm_num [lufsOf, emptyAnalysis])⟩

/-- C1 counterexample input: a well-formed measurement of a very loud track
(-5 LUFS integrated), known profile hint, no genre data. -/
def veryLoudAnalysis : Analysis :=
  { genre := some "", mastering_profile := some "modern_pop",
    integrated_lufs := some (-5), dynamic_range_db := none, bass_emphasis := none,
    high_emphasis := none, stereo_width := none }

/-- C1 counterexample: resolving the -5 LUFS measurement returns target
LUFS max(-13, -5 - 1) = -6, outside the [-18, -8] invariant — there is no
final clamp pass re-applying the bounds. -/
theorem clamp_closure_refuted :
    (optimizeMasteringParameters (loadGenreTemplates []) veryLoudAnalysis).target_lufs = -6 ∧
    ¬ paramsValid (optimizeMasteringParameters (loadGenreTemplates []) veryLoudAnalysis) := by
  norm_num [optimizeMasteringParameters, applyTrackSpecificOptimizations,
    trackLoudnessStep, trackDynamicsStep, trackBassStep, trackHighStep, trackStereoStep,
    lufsOf, drOf, bassOf, highOf, widthOf, veryLoudAnalysis, profileOf, genreKey,
    getBaseProfile, modern_pop, defaultParameters, paramsValid, loadGenreTemplates]

/-- C2: the engine's template store holds a template for a genre exactly
when the corpus has at least 5 stored samples of that genre; below the
threshold the genre is absent from the store (no zeroed default). -/
theorem template_present_iff_five_samples (corpus : List TrackRecord) (g : String) :
    (loadGenreTemplates corpus g).isSome ↔
      5 ≤ (corpus.filter (fun r => r.genre == g)).length := by
  unfold loadGenreTemplates
  by_cases h : 5 ≤ (corpus.filter (fun r => r.genre == g)).length <;> simp [h]

lemma bandStageCount_append (n : String) (l₁ l₂ : List Stage) :
    bandStageCount n (l₁ ++ l₂) = bandStageCount n l₁ + bandStageCount n l₂ :=
  List.countP_append _ _ _

lemma bandStageCount_bandStage_self (n : String) (b : EqBand) :
    bandStageCount n (bandStage n b) = if 0.1 < |b.gain| then 1 else 0 := by
  unfold bandStage bandStageCount
  split_ifs <;> simp [isBandStage]

lemma bandStageCount_bandStage_ne (n m : String) (h : ¬ m = n) (b : EqBand) :
    bandStageCount n (bandStage m b) = 0 := by
  unfold bandStage bandStageCount
  split_ifs <;> simp [isBandStage, h]

lemma bandStageCount_ite_nil (n : String) (c : Prop) [Decidable c] (s : Stage)
    (h : isBandStage n s = false) :
    bandStageCount n (if c then [s] else []) = 0 := by
  split_ifs <;> simp [bandStageCount, h]

lemma bandStageCount_ite_nil2 (n : String) (c : Prop) [Decidable c] (s : Stage)
    (h : isBandStage n s = false) :
    bandStageCount n (if c then [] else [s]) = 0 := by
  split_ifs <;> simp [bandStageCount, h]

lemma bandStageCount_cons (n : String) (s : Stage) (l : List Stage) :
    bandStageCount n (s :: l) =
      bandStageCount n l + (if isBandStage n s = true then 1 else 0) :=
  List.countP_cons _ _ _

lemma bandStageCount_nil (n : String) : bandStageCount n [] = 0 := rfl

/-- C5: each of the seven EQ bands contributes exactly one equalizer stage
to the compiled chain when its resolved gain magnitude exceeds 0.1 dB, and
no stage at all otherwise. -/
theorem dead_zone_band_omission (p : MasteringParameters) :
    bandStageCount "sub_bass" (buildIntelligentFilterChain p) =
      (if 0.1 < |p.eq_bands.sub_bass.gain| then 1 else 0) ∧
    bandStageCount "bass" (buildIntelligentFilterChain p) =
      (if 0.1 < |p.eq_bands.bass.gain| then 1 else 0) ∧
    bandStageCount "low_mid" (buildIntelligentFilterChain p) =
      (if 0.1 < |p.eq_bands.low_mid.gain| then 1 else 0) ∧
    bandStageCount "mid" (buildIntelligentFilterChain p) =
      (if 0.1 < |p.eq_bands.mid.gain| then 1 else 0) ∧
    bandStageCount "high_mid" (buildIntelligentFilterChain p) =
      (if 0.1 < |p.eq_bands.high_mid.gain| then 1 else 0) ∧
    bandStageCount "presence" (buildIntelligentFilterChain p) =
      (if 0.1 < |p.eq_bands.presence.gain| then 1 else 0) ∧
    bandStageCount "air" (buildIntelligentFilterChain p) =
      (if 0.1 < |p.eq_bands.air.gain| then 1 else 0) := by
  refine ⟨?_, ?_, ?_, ?_, ?_, ?_, ?_⟩ <;>
    simp [buildIntelligentFilterChain, eqSection, bandStageCount_append,
      bandStageCount_cons, bandStageCount_bandStage_self, bandStageCount_bandStage_ne,
      bandStageCount_ite_nil, bandStageCount_ite_nil2, bandStageCount_nil, isBandStage]

/-- C4 amended: graph compilation performs no invariant check and has no
error path: for every ParameterSet (invariant-violating or not) it produces
a full chain containing the loudness-normalization stage and ending in the
limiter stage. -/
theorem compile_never_fails (p : MasteringParameters) :
    Stage.loudnorm p.target_lufs ∈ buildIntelligentFilterChain p ∧
    (buildIntelligentFilterChain p).getLast? =
      some (Stage.limiter p.limiter_ceiling p.limiter_release) := by
  constructor
  · simp [buildIntelligentFilterChain]
  · unfold buildIntelligentFilterChain
    rw [List.getLast?_append_of_ne_nil _ (by simp)]
    rfl

/-- An invariant-violating ParameterSet: modern_pop with target LUFS 0
(far outside [-18, -8]). -/
def invalidParams : MasteringParameters := { modern_pop with target_lufs := 0 }

/-- C4 counterexample: the invariant-violating ParameterSet does not make
compilation fail — it compiles to a full 16-stage chain (output is
produced), refuting "for every invariant-violating ParameterSet,
compilation fails rather than producing output". -/
theorem invalid_params_still_compile :
    ¬ paramsValid invalidParams ∧
    (buildIntelligentFilterChain invalidParams).length = 16 ∧
    Stage.loudnorm 0 ∈ buildIntelligentFilterChain invalidParams := by
  refine ⟨?_, ?_, ?_⟩
  · norm_num [paramsValid, invalidParams, modern_pop, defaultParameters]
  · norm_num [buildIntelligentFilterChain, eqSection, bandStage, invalidParams,
      modern_pop, defaultParameters, abs_eq_max_neg]
  · norm_num [buildIntelligentFilterChain, eqSection, bandStage, invalidParams,
      modern_pop, defaultParameters, abs_eq_max_neg]

lemma getBaseProfile_of_unknown (s : String) (h : s ∉ profileLabels) :
    getBaseProfile s = modern_pop := by
  unfold getBaseProfile
  split_ifs with h1 h2 h3 h4 h5 h6 <;>
    first
      | rfl
      | (exfalso; apply h; simp_all [profileLabels])

/-- C3 amended: resolution is a total function that degrades unknown hints
to defaults: when the profile hint is not a catalog label and the template
store has no entry for the genre key, the result equals the track-specific
overlay applied to the default modern_pop profile. The fallback decisions
themselves are not reported (see the counterexample). -/
theorem unknown_hints_degrade_to_default (store : String → Option GenreTemplate)
    (a : Analysis) (hp : profileOf a ∉ profileLabels) (hg : store (genreKey a) = none) :
    optimizeMasteringParameters store a = applyTrackSpecificOptimizations modern_pop a := by
  unfold optimizeMasteringParameters
  rw [hg, getBaseProfile_of_unknown _ hp]

/-- Analysis with an unrecognized profile hint and unrecognized genre. -/
def unknownHintsAnalysis : Analysis :=
  { genre := some "xyz", mastering_profile := some "no_such_profile",
    integrated_lufs := none, dynamic_range_db := none, bass_emphasis := none,
    high_emphasis := none, stereo_width := none }

/-- Witness for the amended C3: an analysis carrying hints the engine does
not know resolves through the default profile. -/
theorem unknown_hints_degrade_to_default_witness :
    (profileOf unknownHintsAnalysis ∉ profileLabels ∧
     loadGenreTemplates [] (genreKey unknownHintsAnalysis) = none) ∧
    optimizeMasteringParameters (loadGenreTemplates []) unknownHintsAnalysis =
      applyTrackSpecificOptimizations modern_pop unknownHintsAnalysis :=
  ⟨⟨by simp [profileOf, profileLabels, unknownHintsAnalysis],
    by simp [loadGenreTemplates]⟩,
   unknown_hints_degrade_to_default (loadGenreTemplates []) unknownHintsAnalysis
     (by simp [profileOf, profileLabels, unknownHintsAnalysis])
     (by simp [loadGenreTemplates])⟩

lemma applyTrackSpecific_congr (p : MasteringParameters) (a b : Analysis)
    (h1 : a.integrated_lufs = b.integrated_lufs)
    (h2 : a.dynamic_range_db = b.dynamic_range_db)
    (h3 : a.bass_emphasis = b.bass_emphasis)
    (h4 : a.high_emphasis = b.high_emphasis)
    (h5 : a.stereo_width = b.stereo_width) :
    applyTrackSpecificOptimizations p a = applyTrackSpecificOptimizations p b := by
  have s1 : ∀ q, trackLoudnessStep q a = trackLoudnessStep q b := fun q => by
    unfold trackLoudnessStep lufsOf; rw [h1]
  have s2 : ∀ q, trackDynamicsStep q a = trackDynamicsStep q b := fun q => by
    unfold trackDynamicsStep drOf; rw [h2]
  have s3 : ∀ q, trackBassStep q a = trackBassStep q b := fun q => by
    unfold trackBassStep bassOf; rw [h3]
  have s4 : ∀ q, trackHighStep q a = trackHighStep q b := fun q => by
    unfold trackHighStep highOf; rw [h4]
  have s5 : ∀ q, trackStereoStep q a = trackStereoStep q b := fun q => by
    unfold trackStereoStep widthOf; rw [h5]
  unfold applyTrackSpecificOptimizations
  rw [s1, s2, s3, s4, s5]

/-- An analysis whose profile hint names the catalog profile directly. -/
def knownProfileAnalysis : Analysis :=
  { genre := some "pop", mastering_profile := some "modern_pop",
    integrated_lufs := none, dynamic_range_db := none, bass_emphasis := none,
    high_emphasis := none, stereo_width := none }

/-- The same analysis with an unrecognized profile hint. -/
def unknownProfileAnalysis : Analysis :=
  { genre := some "pop", mastering_profile := some "mystery_profile",
    integrated_lufs := none, dynamic_range_db := none, bass_emphasis := none,
    high_emphasis := none, stereo_width := none }

/-- C3 counterexample: the UnknownProfile fallback is NOT observable. The
two inputs differ only in the profile hint — one recognized, one not — yet
the engine's entire resolver output (optimized parameters plus the
`ai_decisions` explanation) is identical, so no caller can learn that a
fallback was taken, refuting "every fallback decision taken is reported
alongside the returned result". -/
theorem fallback_not_reported :
    knownProfileAnalysis ≠ unknownProfileAnalysis ∧
    resolveReport (loadGenreTemplates []) knownProfileAnalysis =
      resolveReport (loadGenreTemplates []) unknownProfileAnalysis := by
  constructor
  · simp [knownProfileAnalysis, unknownProfileAnalysis]
  · have hg1 : loadGenreTemplates [] (genreKey knownProfileAnalysis) = none := by
      simp [loadGenreTemplates]
    have hg2 : loadGenreTemplates [] (genreKey unknownProfileAnalysis) = none := by
      simp [loadGenreTemplates]
    have e1 : optimizeMasteringParameters (loadGenreTemplates []) knownProfileAnalysis =
        applyTrackSpecificOptimizations modern_pop knownProfileAnalysis := by
      unfold optimizeMasteringParameters
      rw [hg1]
      simp [profileOf, knownProfileAnalysis, getBaseProfile]
    have e2 : optimizeMasteringParameters (loadGenreTemplates []) unknownProfileAnalysis =
        applyTrackSpecificOptimizations modern_pop unknownProfileAnalysis := by
      unfold optimizeMasteringParameters
      rw [hg2]
      have hp : profileOf unknownProfileAnalysis = "mystery_profile" := rfl
      rw [hp, getBaseProfile_of_unknown "mystery_profile" (by simp [profileLabels])]
    have e3 : applyTrackSpecificOptimizations modern_pop knownProfileAnalysis =
        applyTrackSpecificOptimizations modern_pop unknownProfileAnalysis :=
      applyTrackSpecific_congr modern_pop _ _ rfl rfl rfl rfl rfl
    unfold resolveReport
    rw [e1, e2, ← e3]
    simp [explainAIDecisions, knownProfileAnalysis, unknownProfileAnalysis]

lemma genreLufsStage_eq_bands (p : MasteringParameters) (t : GenreTemplate) :
    (genreLufsStage p t).eq_bands = p.eq_bands := by
  unfold genreLufsStage; cases t.lufs_target <;> rfl

lemma genreDynamicsStage_eq_bands (p : MasteringParameters) (t : GenreTemplate) :
    (genreDynamicsStage p t).eq_bands = p.eq_bands := by
  unfold genreDynamicsStage; cases t.dynamic_range_target with
  | none => rfl
  | some v => dsimp only; split_ifs <;> rfl

lemma genreWidthStage_eq_bands (p : MasteringParameters) (t : GenreTemplate) :
    (genreWidthStage p t).eq_bands = p.eq_bands := by
  unfold genreWidthStage; cases t.stereo_width <;> rfl

lemma genreCompressionStage_eq_bands (p : MasteringParameters) (t : GenreTemplate) :
    (genreCompressionStage p t).eq_bands = p.eq_bands := by
  unfold genreCompressionStage; cases t.comp_ratio <;> rfl

lemma genreCeilingStage_eq_bands (p : MasteringParameters) (t : GenreTemplate) :
    (genreCeilingStage p t).eq_bands = p.eq_bands := by
  unfold genreCeilingStage; cases t.lim_ceiling <;> rfl

lemma genreReleaseStage_eq_bands (p : MasteringParameters) (t : GenreTemplate) :
    (genreReleaseStage p t).eq_bands = p.eq_bands := by
  unfold genreReleaseStage; cases t.lim_release <;> rfl

/-- C8 amended: for a template actually built by `_load_genre_templates`,
the genre overlay adds the template's bass boost max(0, mean bass emphasis
- 0.3) to the bass band and 0.7 times it to the sub-bass band, but leaves
the presence and air bands unchanged: the loaded templates carry no high
boost (`eq` recommendations hold only `bass_boost`), so the high-emphasis
adjustment never applies in the engine's resolution flow. -/
theorem genre_overlay_bass_only (corpus : List TrackRecord) (g : String)
    (t : GenreTemplate) (h : loadGenreTemplates corpus g = some t)
    (p : MasteringParameters) :
    (applyGenreTemplate p t).eq_bands.bass.gain =
      p.eq_bands.bass.gain + t.eq_bass_boost.getD 0 ∧
    (applyGenreTemplate p t).eq_bands.sub_bass.gain =
      p.eq_bands.sub_bass.gain + t.eq_bass_boost.getD 0 * 0.7 ∧
    (applyGenreTemplate p t).eq_bands.presence.gain = p.eq_bands.presence.gain ∧
    (applyGenreTemplate p t).eq_bands.air.gain = p.eq_bands.air.gain ∧
    t.eq_bass_boost = some (max 0 (t.bass_emphasis - 0.3)) ∧
    t.eq_high_boost = none := by
  unfold loadGenreTemplates at h
  by_cases hlen : 5 ≤ (corpus.filter (fun r => r.genre == g)).length
  · rw [if_pos hlen] at h
    have ht : t = _ := (Option.some.inj h).symm
    subst ht
    refine ⟨?_, ?_, ?_, ?_, rfl, rfl⟩ <;>
    · simp only [applyGenreTemplate, genreBassBoostStage, genreHighBoostStage,
        genreLowMidCutStage, genreReleaseStage_eq_bands, genreCeilingStage_eq_bands,
        genreCompressionStage_eq_bands, genreLufsStage_eq_bands,
        genreDynamicsStage_eq_bands, genreWidthStage_eq_bands]
      split_ifs with hb
      · simp [genreWidthStage_eq_bands, genreDynamicsStage_eq_bands,
          genreLufsStage_eq_bands]
      · have hz : max 0
            ((avgOf (corpus.filter (fun r => r.genre == g)) (·.bass_emphasis)) - 0.3) = 0 :=
          le_antisymm (not_lt.mp hb) (le_max_left _ _)
        simp [hz, genreWidthStage_eq_bands, genreDynamicsStage_eq_bands,
          genreLufsStage_eq_bands]
  · rw [if_neg hlen] at h
    exact absurd h (by simp)

/-- One stored reference track of genre "edm" whose high emphasis (0.8)
sits far above the 0.3 baseline. -/
def edmRecord : TrackRecord :=
  { genre := "edm", integrated_lufs := -10, dynamic_range_db := 6,
    bass_emphasis := 0.3, high_emphasis := 0.8, stereo_width := 1.0 }

/-- Five stored "edm" samples: exactly at the template threshold. -/
def corpusEdm : List TrackRecord :=
  [edmRecord, edmRecord, edmRecord, edmRecord, edmRecord]

/-- The template `_load_genre_templates` builds for that corpus. -/
def tEdm : GenreTemplate :=
  { lufs_target := some (-10), dynamic_range_target := some 6,
    bass_emphasis := 0.3, high_emphasis := 0.8, stereo_width := some 1,
    reference_count := 5, comp_ratio := some 2.5, eq_bass_boost := some 0,
    eq_high_boost := none, eq_low_mid_cut := none, lim_ceiling := some (-0.8),
    lim_release := none }

lemma loadGenreTemplates_corpusEdm : loadGenreTemplates corpusEdm "edm" = some tEdm := by
  simp [loadGenreTemplates, corpusEdm, edmRecord, avgOf, tEdm]
  norm_num

/-- Witness for the amended C8 at the five-sample "edm" corpus. -/
theorem genre_overlay_bass_only_witness :
    loadGenreTemplates corpusEdm "edm" = some tEdm ∧
    ((applyGenreTemplate modern_pop tEdm).eq_bands.bass.gain =
       modern_pop.eq_bands.bass.gain + tEdm.eq_bass_boost.getD 0 ∧
     (applyGenreTemplate modern_pop tEdm).eq_bands.sub_bass.gain =
       modern_pop.eq_bands.sub_bass.gain + tEdm.eq_bass_boost.getD 0 * 0.7 ∧
     (applyGenreTemplate modern_pop tEdm).eq_bands.presence.gain =
       modern_pop.eq_bands.presence.gain ∧
     (applyGenreTemplate modern_pop tEdm).eq_bands.air.gain =
       modern_pop.eq_bands.air.gain ∧
     tEdm.eq_bass_boost = some (max 0 (tEdm.bass_emphasis - 0.3)) ∧
     tEdm.eq_high_boost = none) :=
  ⟨loadGenreTemplates_corpusEdm,
   genre_overlay_bass_only corpusEdm "edm" tEdm loadGenreTemplates_corpusEdm modern_pop⟩

/-- C8 counterexample: the "edm" template's mean high emphasis 0.8 sits 0.5
above the 0.3 baseline, yet the genre overlay leaves the presence and air
gains of the modern_pop profile exactly unchanged — the presence band does
not receive any high boost, refuting the claimed high-emphasis
adjustment. -/
theorem genre_overlay_high_boost_refuted :
    loadGenreTemplates corpusEdm "edm" = some tEdm ∧
    tEdm.high_emphasis = 0.8 ∧
    (applyGenreTemplate modern_pop tEdm).eq_bands.presence.gain =
      modern_pop.eq_bands.presence.gain ∧
    (applyGenreTemplate modern_pop tEdm).eq_bands.air.gain =
      modern_pop.eq_bands.air.gain := by
  refine ⟨loadGenreTemplates_corpusEdm, rfl, ?_, ?_⟩ <;>
    norm_num [applyGenreTemplate, genreLufsStage, genreDynamicsStage, genreWidthStage,
      genreBassBoostStage, genreHighBoostStage, genreLowMidCutStage,
      genreCompressionStage, genreCeilingStage, genreReleaseStage, tEdm,
      modern_pop, defaultParameters]
